import Mathlib

/-!
Shallow embedding of the microscaling (Force12) control loop.

Two generations of the reconciliation logic live in the repository:

* src/main.go: the `Demand` record with methods `set`, `get`, `update`,
  `handle`, the telemetry push `sendStateToAPI`, and the main loop.
* src/unnamed/part_000: the task-map based `update` and `handleDemandChange`
  with the `scaling_ready` single-flight gate.

Go `int` is modelled as `Int` (the values in play are tiny; no overflow is
reachable), a Go `error` as `Option Err` (`none` is the nil error), and a Go
call returning `(int, error)` as `Except Err Int`.  External collaborators
(the demand source and the scheduler backend) are modelled as explicit
response parameters, since their implementations are out of scope.
-/

namespace Microscaling

/-- Stand-in for a non-nil Go `error` value. -/
abbrev Err := Nat

/-- Result of a Go call returning `(int, error)`: `Except.error e` is a call
whose error was non-nil, `Except.ok v` a successful call returning `v`. -/
abbrev DemandRes := Except Err Int

/-- Embeds `const_maxcontainers` from src/main.go. -/
def const_maxcontainers : Int := 9

/-- Embeds `const_p1demandstart` from src/main.go. -/
def const_p1demandstart : Int := 5

/-- Embeds `const_p2demandstart` from src/main.go. -/
def const_p2demandstart : Int := 4

/-- The two priority classes (task names `p1TaskName` / `p2TaskName`). -/
inductive ClassName
  | P1
  | P2
deriving DecidableEq, Repr

/-- Embeds the mutable fields of the `Demand` struct from src/main.go
(the `sched` and `input` interface fields are modelled as explicit response
parameters of the operations that use them). -/
structure Demand where
  p1demand : Int
  p2demand : Int
  p1requested : Int
  p2requested : Int
deriving DecidableEq, Repr

/-- Embeds `Demand.set` from src/main.go: returns the updated record plus the
old `(p1, p2)` values; a provided value of `-1` leaves that field unchanged. -/
def Demand.set (d : Demand) (p1 p2 : Int) : Demand × Int × Int :=
  let p1old := d.p1demand
  let p2old := d.p2demand
  let d1 := if p2 ≠ -1 then Demand.mk d.p1demand p2 d.p1requested d.p2requested else d
  let d2 := if p1 ≠ -1 then Demand.mk p1 d1.p2demand d1.p1requested d1.p2requested else d1
  (d2, p1old, p2old)

/-- Embeds `Demand.get` from src/main.go. -/
def Demand.get (d : Demand) : Int × Int :=
  (d.p1demand, d.p2demand)

/-- Embeds `Demand.update` from src/main.go: `getRes` is the result of
`d.input.GetDemand("priority1-demand")`.  On error it returns `false` with the
record untouched; on success it computes `newP2Demand :=
const_maxcontainers - newP1Demand`, stores both via `set`, and reports whether
either value changed. -/
def Demand.update (d : Demand) (getRes : DemandRes) : Demand × Bool :=
  match getRes with
  | Except.error _ => (d, false)
  | Except.ok newP1Demand =>
    let newP2Demand := const_maxcontainers - newP1Demand
    let r := d.set newP1Demand newP2Demand
    let demandchange := (newP1Demand != r.2.1) || (newP2Demand != r.2.2)
    (r.1, demandchange)

/-- A scheduler interaction issued by the loop in src/main.go:
a `StopStartNTasks` call for one class (with the demanded and requested
counts passed) or a `CountAllTasks` call. -/
inductive SchedCall
  | stopStart (c : ClassName) (dem req : Int)
  | countAll
deriving DecidableEq, Repr

/-- Embeds `Demand.handle` from src/main.go: `p1res` and `p2res` are the
errors the two `StopStartNTasks` calls return.  The source assigns `err` only
from the first call; the second call's return value is discarded (the
statement has no assignment), so `p2res` is unused here, faithfully to the
source.  Returns the error `handle` returns and the calls it issues. -/
def Demand.handle (d : Demand) (p1res p2res : Option Err) : Option Err × List SchedCall :=
  let err := p1res
  (err,
   [SchedCall.stopStart ClassName.P1 d.p1demand d.p1requested,
    SchedCall.stopStart ClassName.P2 d.p2demand d.p2requested])

/-- Result of `CountAllTasks` in src/main.go: the two counts and the error;
the Go multi-assignment stores the counts whether or not the error is nil. -/
structure CountRes where
  c1 : Int
  c2 : Int
  err : Option Err
deriving DecidableEq, Repr

/-- One iteration of the main loop of src/main.go (lines 285-299), minus the
sleep/telemetry tail: run `update`; if demand changed, refresh the requested
counts from `CountAllTasks` and run `handle`.  Returns the new record, the
scheduler calls issued this tick, and the error `handle` returned. -/
def tick (d : Demand) (getRes : DemandRes) (cnt : CountRes) (p1res p2res : Option Err) :
    Demand × List SchedCall × Option Err :=
  let u := d.update getRes
  if u.2 then
    let d2 := Demand.mk u.1.p1demand u.1.p2demand cnt.c1 cnt.c2
    let h := d2.handle p1res p2res
    (d2, SchedCall.countAll :: h.2, h.1)
  else (u.1, [], none)

/-- The per-tick external responses consumed by one iteration of the main
loop of src/main.go. -/
structure TickInput where
  getRes : DemandRes
  cnt : CountRes
  p1res : Option Err
  p2res : Option Err

/-- Runs consecutive iterations of the main loop of src/main.go, collecting
every scheduler call issued. -/
def run (d : Demand) : List TickInput → Demand × List SchedCall
  | [] => (d, [])
  | i :: rest =>
    let t := tick d i.getRes i.cnt i.p1res i.p2res
    let r := run t.1 rest
    (r.1, t.2.1 ++ r.2)

/-- The `Demand` record as seeded at startup by src/main.go (lines 259-262):
a zero record followed by `set(const_p1demandstart, const_p2demandstart)`. -/
def startupDemand : Demand :=
  ((Demand.mk 0 0 0 0).set const_p1demandstart const_p2demandstart).1

/-- Startup tail of `main` in src/main.go (lines 277-299): the pre-loop
`update` call (whose boolean result is overwritten by the dead
`demandchangeflag = true` assignment before being read), followed by the
first iteration of the loop. -/
def firstIteration (preRes res1 : DemandRes) (cnt : CountRes) (p1res p2res : Option Err) :
    Demand × List SchedCall × Option Err :=
  let pre := startupDemand.update preRes
  tick pre.1 res1 cnt p1res p2res

/-- Embeds the fields of `demand.Task` used by src/unnamed/part_000 (the spec
data model: demand, requested, running). -/
structure Task where
  demand : Int
  requested : Int
  running : Int
deriving DecidableEq, Repr

/-- The `ts` map of src/unnamed/part_000, which holds exactly the two
priority classes keyed by `p1TaskName` / `p2TaskName`. -/
structure TaskMap where
  p1 : Task
  p2 : Task
deriving DecidableEq, Repr

/-- Map lookup `ts[name]` for the two fixed keys. -/
def TaskMap.get : TaskMap → ClassName → Task
  | ts, ClassName.P1 => ts.p1
  | ts, ClassName.P2 => ts.p2

/-- Map store `ts[name] = t` for the two fixed keys. -/
def TaskMap.put : TaskMap → ClassName → Task → TaskMap
  | ts, ClassName.P1, t => TaskMap.mk t ts.p2
  | ts, ClassName.P2, t => TaskMap.mk ts.p1 t

/-- Embeds `update` from src/unnamed/part_000 (lines 48-84): `inp1` and
`inp2` are the results of `input.GetDemand(p1TaskName)` and
`input.GetDemand(p2TaskName)`.  Either error returns `(false, err)` with the
map untouched (the locally updated task records are only written back after
both queries succeed).  Returns the map afterwards, the changed flag, and the
returned error. -/
def update (inp1 inp2 : DemandRes) (ts : TaskMap) : TaskMap × Bool × Option Err :=
  let oldP1Demand := ts.p1.demand
  let oldP2Demand := ts.p2.demand
  match inp1 with
  | Except.error e => (ts, false, some e)
  | Except.ok v1 =>
    let p1a := Task.mk v1 ts.p1.requested ts.p1.running
    match inp2 with
    | Except.error e => (ts, false, some e)
    | Except.ok v2 =>
      let p2a := Task.mk v2 ts.p2.requested ts.p2.running
      let demandchange := (v1 != oldP1Demand) || (v2 != oldP2Demand)
      (TaskMap.mk p1a p2a, demandchange, none)

/-- Response of one `StopStartNTasks` call in src/unnamed/part_000: the new
readiness flag, the (possibly mutated) task record behind the passed pointer,
and the error. -/
structure SchedResult where
  ready : Bool
  task : Task
  err : Option Err
deriving DecidableEq, Repr

/-- The scheduler backend of src/unnamed/part_000, as the per-class, per-task
response of `StopStartNTasks` (pure within one cycle: each class is called at
most once per cycle). -/
abbrev Sched := ClassName → Task → SchedResult

/-- The mutable state threaded through `handleDemandChange` in
src/unnamed/part_000: the task map and the `scaling_ready` flag. -/
structure HState where
  ts : TaskMap
  scaling_ready : Bool
deriving DecidableEq, Repr

/-- The `for name, task := range ts` loop of `handleDemandChange`
(src/unnamed/part_000 lines 26-40).  `order` is the iteration order of the Go
map range, which the Go language leaves unspecified; `Admissible` below says
which orders a two-key map can produce.  Each loop step checks
`scaling_ready` and returns nil if it is false; otherwise it issues the call,
stores the returned flag, breaks with the error on failure, and commits the
mutated task record on success.  The trace records each issued call together
with the flag value observed just before issuing it. -/
def reconcileLoop (s : Sched) : List ClassName → HState → List (ClassName × Bool) →
    HState × List (ClassName × Bool) × Option Err
  | [], st, tr => (st, tr, none)
  | c :: rest, st, tr =>
    if st.scaling_ready = false then (st, tr, none)
    else
      let r := s c (st.ts.get c)
      match r.err with
      | some e => (HState.mk st.ts r.ready, tr ++ [(c, st.scaling_ready)], some e)
      | none => reconcileLoop s rest (HState.mk (st.ts.put c r.task) r.ready)
          (tr ++ [(c, st.scaling_ready)])

/-- Embeds `handleDemandChange` from src/unnamed/part_000 (lines 11-44):
sample via `update`; on error return it; if demand changed, run the
reconciliation loop over the map in the given range order. -/
def handleDemandChange (inp1 inp2 : DemandRes) (s : Sched) (order : List ClassName)
    (st : HState) : HState × List (ClassName × Bool) × Option Err :=
  let u := update inp1 inp2 st.ts
  match u.2.2 with
  | some e => (HState.mk u.1 st.scaling_ready, [], some e)
  | none =>
    if u.2.1 then reconcileLoop s order (HState.mk u.1 st.scaling_ready) []
    else (HState.mk u.1 st.scaling_ready, [], none)

/-- The iteration orders a Go `range` over the two-key task map can produce:
each key exactly once, in an unspecified order. -/
def Admissible (order : List ClassName) : Prop :=
  order = [ClassName.P1, ClassName.P2] ∨ order = [ClassName.P2, ClassName.P1]

/-- Modelled from the spec: the PriorityAllocator reference policy in its own
words, `p1 = clamp(rawDemand[p1], 0, capacity)` and `p2 = capacity - p1`.
Used only to compare against the allocation src/main.go actually performs
inside `Demand.update`; the source has no separate allocator function. -/
def specAllocate (raw capacity : Int) : Int × Int :=
  let p1 := max 0 (min raw capacity)
  (p1, capacity - p1)

/-- Outcome of one telemetry push: a normal error return, success, or a
runtime panic that crashes the process. -/
inductive PushOutcome
  | success
  | failure (e : Err)
  | panicked
deriving DecidableEq, Repr

/-- Embeds `sendStateToAPI` from src/main.go (lines 149-194).  `countRes` is
the `CountAllTasks` result, `encErr` the json-encode error, `reqErr` the
`http.NewRequest` error, and `doRes` the result of `http.DefaultClient.Do`:
`Except.error` is a transport-level failure, in which the response is nil.
The source registers `defer resp.Body.Close()` before checking the error from
`Do`, so on a transport error the deferred call dereferences the nil response
and the function panics instead of returning; the distinct failure codes
stand for the distinct `fmt.Errorf` messages. -/
def sendStateToAPI (countRes : Except Err (Int × Int)) (encErr reqErr : Option Err)
    (doRes : Except Err Int) : PushOutcome :=
  match countRes with
  | Except.error _ => PushOutcome.failure 1
  | Except.ok _ =>
    match encErr with
    | some _ => PushOutcome.failure 2
    | none =>
      match reqErr with
      | some _ => PushOutcome.failure 3
      | none =>
        match doRes with
        | Except.error _ => PushOutcome.panicked
        | Except.ok status =>
          if status > 204 then PushOutcome.failure 4 else PushOutcome.success

/-- A scheduler whose every call succeeds and leaves the gate ready. -/
def schedOk : Sched := fun _ t => SchedResult.mk true t none

/-- A scheduler whose priority-1 call fails with error 1 and whose priority-2
call succeeds, recording the demanded count into the requested field. -/
def schedP1Err : Sched := fun c t =>
  match c with
  | ClassName.P1 => SchedResult.mk true t (some 1)
  | ClassName.P2 => SchedResult.mk true (Task.mk t.demand t.demand t.running) none

/-- A scheduler whose priority-1 call succeeds and whose priority-2 call
fails with error 2. -/
def schedP2Err : Sched := fun c t =>
  match c with
  | ClassName.P1 => SchedResult.mk true t none
  | ClassName.P2 => SchedResult.mk true t (some 2)

/-- The task map matching the startup-seeded demands. -/
def tsStart : TaskMap :=
  TaskMap.mk (Task.mk 5 0 0) (Task.mk 4 0 0)

/-- Shape of a successful `Demand.update` when neither stored value hits the
`-1` skip sentinel of `set`: both demands are overwritten and the changed
flag compares them with the old values. -/
theorem update_ok (d : Demand) (raw : Int) (h1 : raw ≠ -1)
    (h2 : const_maxcontainers - raw ≠ -1) :
    d.update (Except.ok raw)
      = (Demand.mk raw (const_maxcontainers - raw) d.p1requested d.p2requested,
         (raw != d.p1demand) || ((const_maxcontainers - raw) != d.p2demand)) := by
  simp only [Demand.update, Demand.set]
  rw [if_pos h2, if_pos h1]

/-- Claim C1, counterexample: with stored demands (5, 4), a sampled raw
priority-1 demand of 11 makes the update step of src/main.go store p1 = 11
and p2 = -2, while the claimed formulas clamp(11, 0, 9) and capacity - p1
give (9, 0): p1 is not clamped down to capacity and p2 goes negative. -/
theorem C1_counterexample :
    ((startupDemand.update (Except.ok 11)).1.p1demand = 11 ∧
     (startupDemand.update (Except.ok 11)).1.p2demand = -2) ∧
    specAllocate 11 const_maxcontainers = (9, 0) := by
  decide

/-- Claim C1, amended: the update step stores p1 = rawDemand unclamped and
p2 = capacity - rawDemand; whenever 0 ≤ rawDemand ≤ capacity this coincides
with the claimed clamped formulas and p2 is non-negative, but no clamping is
performed for raw demands above capacity. -/
theorem C1_amended_alloc (d : Demand) (raw : Int) (h0 : 0 ≤ raw)
    (h9 : raw ≤ const_maxcontainers) :
    ((d.update (Except.ok raw)).1.p1demand, (d.update (Except.ok raw)).1.p2demand)
        = specAllocate raw const_maxcontainers ∧
    0 ≤ (d.update (Except.ok raw)).1.p2demand := by
  simp only [const_maxcontainers] at h9
  rw [update_ok d raw (by omega) (by simp only [const_maxcontainers]; omega)]
  refine ⟨?_, ?_⟩
  · simp only [specAllocate, const_maxcontainers, min_eq_left h9, max_eq_right h0]
  · simp only [const_maxcontainers]
    omega

/-- Witness for C1_amended_alloc at d = startupDemand, raw = 7. -/
theorem C1_amended_alloc_witness :
    ((0:Int) ≤ 7 ∧ (7:Int) ≤ const_maxcontainers) ∧
    (((startupDemand.update (Except.ok 7)).1.p1demand,
      (startupDemand.update (Except.ok 7)).1.p2demand)
        = specAllocate 7 const_maxcontainers ∧
     0 ≤ (startupDemand.update (Except.ok 7)).1.p2demand) :=
  ⟨⟨by decide, by decide⟩, C1_amended_alloc startupDemand 7 (by decide) (by decide)⟩

/-- Claim C2, counterexample: the non-negative raw demand 10 breaks the
claimed invariant after a successful sample that stores new values: from the
startup-seeded record the stored demands become (10, 4) (the computed p2 of
-1 hits the skip sentinel of `set`), so p1 exceeds capacity and the demands
do not sum to capacity. -/
theorem C2_counterexample :
    (startupDemand.update (Except.ok 10)).1.p1demand = 10 ∧
    (startupDemand.update (Except.ok 10)).1.p2demand = 4 ∧
    ¬ ((startupDemand.update (Except.ok 10)).1.p1demand ≤ const_maxcontainers) ∧
    (startupDemand.update (Except.ok 10)).1.p1demand
        + (startupDemand.update (Except.ok 10)).1.p2demand ≠ const_maxcontainers := by
  decide

/-- Claim C2, amended: the invariant p1 + p2 = capacity with both components
in [0, capacity] holds after every successful sample whose raw demand lies in
[0, capacity]; raw demands above capacity violate it (the code never clamps). -/
theorem C2_amended_invariant (d : Demand) (raw : Int) (h0 : 0 ≤ raw)
    (h9 : raw ≤ const_maxcontainers) :
    (d.update (Except.ok raw)).1.p1demand + (d.update (Except.ok raw)).1.p2demand
        = const_maxcontainers ∧
    0 ≤ (d.update (Except.ok raw)).1.p1demand ∧
    (d.update (Except.ok raw)).1.p1demand ≤ const_maxcontainers ∧
    0 ≤ (d.update (Except.ok raw)).1.p2demand ∧
    (d.update (Except.ok raw)).1.p2demand ≤ const_maxcontainers := by
  simp only [const_maxcontainers] at h9
  rw [update_ok d raw (by omega) (by simp only [const_maxcontainers]; omega)]
  simp only [const_maxcontainers]
  refine ⟨by omega, by omega, by omega, by omega, by omega⟩

/-- Witness for C2_amended_invariant at d = startupDemand, raw = 3. -/
theorem C2_amended_invariant_witness :
    ((0:Int) ≤ 3 ∧ (3:Int) ≤ const_maxcontainers) ∧
    ((startupDemand.update (Except.ok 3)).1.p1demand
        + (startupDemand.update (Except.ok 3)).1.p2demand = const_maxcontainers ∧
     0 ≤ (startupDemand.update (Except.ok 3)).1.p1demand ∧
     (startupDemand.update (Except.ok 3)).1.p1demand ≤ const_maxcontainers ∧
     0 ≤ (startupDemand.update (Except.ok 3)).1.p2demand ∧
     (startupDemand.update (Except.ok 3)).1.p2demand ≤ const_maxcontainers) :=
  ⟨⟨by decide, by decide⟩, C2_amended_invariant startupDemand 3 (by decide) (by decide)⟩

/-- A cycle whose readiness flag is false returns immediately: state and
trace are untouched and no error is reported. -/
theorem reconcileLoop_not_ready (s : Sched) (order : List ClassName) (st : HState)
    (tr : List (ClassName × Bool)) (h : st.scaling_ready = false) :
    reconcileLoop s order st tr = (st, tr, none) := by
  cases order with
  | nil => rfl
  | cons c rest => simp [reconcileLoop, h]

/-- One loop step whose scheduler call errors: the flag takes the returned
value, the task record is not committed, and the loop breaks with the error. -/
theorem reconcileLoop_cons_err (s : Sched) (c : ClassName) (rest : List ClassName)
    (st : HState) (tr : List (ClassName × Bool)) (e : Err)
    (hft : st.scaling_ready = true) (herr : (s c (st.ts.get c)).err = some e) :
    reconcileLoop s (c :: rest) st tr
      = (HState.mk st.ts (s c (st.ts.get c)).ready, tr ++ [(c, st.scaling_ready)], some e) := by
  simp [reconcileLoop, hft, herr]

/-- One loop step whose scheduler call succeeds: the mutated task record is
committed, the flag takes the returned value, and the loop continues. -/
theorem reconcileLoop_cons_ok (s : Sched) (c : ClassName) (rest : List ClassName)
    (st : HState) (tr : List (ClassName × Bool))
    (hft : st.scaling_ready = true) (herr : (s c (st.ts.get c)).err = none) :
    reconcileLoop s (c :: rest) st tr
      = reconcileLoop s rest (HState.mk (st.ts.put c (s c (st.ts.get c)).task)
          (s c (st.ts.get c)).ready) (tr ++ [(c, st.scaling_ready)]) := by
  simp [reconcileLoop, hft, herr]

/-- Every call the loop records was issued with the readiness flag observed
true (given that the entries accumulated so far already were). -/
theorem reconcileLoop_trace_true (s : Sched) :
    ∀ (order : List ClassName) (st : HState) (tr : List (ClassName × Bool)),
      (∀ e ∈ tr, e.2 = true) →
      ∀ e ∈ (reconcileLoop s order st tr).2.1, e.2 = true := by
  intro order
  induction order with
  | nil =>
    intro st tr htr e he
    exact htr e he
  | cons c rest ih =>
    intro st tr htr e he
    by_cases hf : st.scaling_ready = false
    · rw [reconcileLoop_not_ready s (c :: rest) st tr hf] at he
      exact htr e he
    · have hft : st.scaling_ready = true := by
        cases h2 : st.scaling_ready
        · exact absurd h2 hf
        · rfl
      have htr2 : ∀ e2 ∈ tr ++ [(c, st.scaling_ready)], e2.2 = true := by
        intro e2 he2
        rcases List.mem_append.mp he2 with h3 | h3
        · exact htr e2 h3
        · rw [List.mem_singleton.mp h3]
          exact hft
      cases herr : (s c (st.ts.get c)).err with
      | some e2 =>
        rw [reconcileLoop_cons_err s c rest st tr e2 hft herr] at he
        exact htr2 e he
      | none =>
        rw [reconcileLoop_cons_ok s c rest st tr hft herr] at he
        exact ih _ _ htr2 e he

/-- When the first class's scheduler call always errors, the loop records at
most that single call on top of the accumulated trace. -/
theorem reconcileLoop_first_err (s : Sched) (c : ClassName) (rest : List ClassName)
    (st : HState) (tr : List (ClassName × Bool))
    (hc : ∀ t, (s c t).err ≠ none) :
    (reconcileLoop s (c :: rest) st tr).2.1 = tr ∨
    (reconcileLoop s (c :: rest) st tr).2.1 = tr ++ [(c, st.scaling_ready)] := by
  by_cases hf : st.scaling_ready = false
  · rw [reconcileLoop_not_ready s (c :: rest) st tr hf]
    exact Or.inl rfl
  · have hft : st.scaling_ready = true := by
      cases h2 : st.scaling_ready
      · exact absurd h2 hf
      · rfl
    rcases Option.ne_none_iff_exists'.mp (hc (st.ts.get c)) with ⟨e, he⟩
    rw [reconcileLoop_cons_err s c rest st tr e hft he]
    exact Or.inr rfl

/-- Claim C3: in handleDemandChange (src/unnamed/part_000) every
StopStartNTasks call is issued with the readiness flag observed true, and a
cycle that starts with the flag false issues no scheduler calls at all,
whether or not demand changed. -/
theorem C3_single_flight (inp1 inp2 : DemandRes) (s : Sched) (order : List ClassName)
    (st : HState) :
    (∀ e ∈ (handleDemandChange inp1 inp2 s order st).2.1, e.2 = true) ∧
    (st.scaling_ready = false → (handleDemandChange inp1 inp2 s order st).2.1 = []) := by
  rcases hu : update inp1 inp2 st.ts with ⟨ts1, ch, uerr⟩
  cases uerr with
  | some e =>
    refine ⟨?_, ?_⟩
    · intro e1 he1
      simp [handleDemandChange, hu] at he1
    · intro hf
      simp [handleDemandChange, hu]
  | none =>
    cases ch with
    | false =>
      refine ⟨?_, ?_⟩
      · intro e1 he1
        simp [handleDemandChange, hu] at he1
      · intro hf
        simp [handleDemandChange, hu]
    | true =>
      refine ⟨?_, ?_⟩
      · intro e1 he1
        simp only [handleDemandChange, hu] at he1
        exact reconcileLoop_trace_true s order (HState.mk ts1 st.scaling_ready) []
          (by intro e2 he2; cases he2) e1 (by simpa using he1)
      · intro hf
        simp only [handleDemandChange, hu]
        rw [reconcileLoop_not_ready s order (HState.mk ts1 st.scaling_ready) [] hf]
        simp

/-- Witness for C3_single_flight: a concrete cycle with a changed sample and
the flag false issues no scheduler call. -/
theorem C3_single_flight_witness :
    (handleDemandChange (Except.ok 7) (Except.ok 2) schedOk [ClassName.P1, ClassName.P2]
        (HState.mk tsStart false)).2.1 = [] :=
  (C3_single_flight (Except.ok 7) (Except.ok 2) schedOk [ClassName.P1, ClassName.P2]
      (HState.mk tsStart false)).2 rfl

/-- Claim C4, counterexample: in main.go's Demand.handle the priority-1 call
fails (handle returns its error 1), yet the priority-2 StopStartNTasks call
is still issued in the same cycle. -/
theorem C4_counterexample :
    SchedCall.stopStart ClassName.P2 4 0 ∈ (startupDemand.handle (some 1) none).2 ∧
    (startupDemand.handle (some 1) none).1 = some 1 := by
  decide

/-- Claim C4, amended: in handleDemandChange (src/unnamed/part_000) an error
from the priority-1 call does break the cycle: with the reference order the
priority-2 call is never issued, and with the opposite map-range order a
priority-2 call that already succeeded keeps its committed task record.
main.go's Demand.handle instead issues the priority-2 call unconditionally. -/
theorem C4_amended_break (inp1 inp2 : DemandRes) (s : Sched) (st : HState)
    (hP1 : ∀ t, (s ClassName.P1 t).err ≠ none) :
    (∀ b : Bool, (ClassName.P2, b) ∉
        (handleDemandChange inp1 inp2 s [ClassName.P1, ClassName.P2] st).2.1) ∧
    (∀ v1 v2 : Int, inp1 = Except.ok v1 → inp2 = Except.ok v2 →
      st.scaling_ready = true →
      ((v1 != st.ts.p1.demand) || (v2 != st.ts.p2.demand)) = true →
      (s ClassName.P2 (Task.mk v2 st.ts.p2.requested st.ts.p2.running)).err = none →
      (handleDemandChange inp1 inp2 s [ClassName.P2, ClassName.P1] st).1.ts.p2
        = (s ClassName.P2 (Task.mk v2 st.ts.p2.requested st.ts.p2.running)).task) := by
  constructor
  · rcases hu : update inp1 inp2 st.ts with ⟨ts1, ch, uerr⟩
    cases uerr with
    | some e =>
      intro b hb
      simp [handleDemandChange, hu] at hb
    | none =>
      cases ch with
      | false =>
        intro b hb
        simp [handleDemandChange, hu] at hb
      | true =>
        intro b hb
        simp only [handleDemandChange, hu, if_true] at hb
        have hb2 : (ClassName.P2, b) ∈
            (reconcileLoop s [ClassName.P1, ClassName.P2]
              (HState.mk ts1 st.scaling_ready) []).2.1 := by
          simpa using hb
        rcases reconcileLoop_first_err s ClassName.P1 [ClassName.P2]
            (HState.mk ts1 st.scaling_ready) [] hP1 with h1 | h1
        · rw [h1] at hb2
          simp at hb2
        · rw [h1] at hb2
          simp at hb2
  · intro v1 v2 hv1 hv2 hflag hch hP2ok
    subst hv1
    subst hv2
    have hu : update (Except.ok v1) (Except.ok v2) st.ts
        = (TaskMap.mk (Task.mk v1 st.ts.p1.requested st.ts.p1.running)
                      (Task.mk v2 st.ts.p2.requested st.ts.p2.running),
           (v1 != st.ts.p1.demand) || (v2 != st.ts.p2.demand), none) := rfl
    simp only [handleDemandChange, hu, hch]
    rw [reconcileLoop_cons_ok s ClassName.P2 [ClassName.P1]
        (HState.mk (TaskMap.mk (Task.mk v1 st.ts.p1.requested st.ts.p1.running)
          (Task.mk v2 st.ts.p2.requested st.ts.p2.running)) st.scaling_ready) []
        (by simpa using hflag) (by exact hP2ok)]
    by_cases hf2 : (s ClassName.P2 (Task.mk v2 st.ts.p2.requested st.ts.p2.running)).ready = false
    · rw [reconcileLoop_not_ready s [ClassName.P1] _ _ (by simpa [TaskMap.get] using hf2)]
      simp [TaskMap.put, TaskMap.get]
    · have hft2 : (s ClassName.P2 (Task.mk v2 st.ts.p2.requested st.ts.p2.running)).ready
          = true := by
        cases h2 : (s ClassName.P2 (Task.mk v2 st.ts.p2.requested st.ts.p2.running)).ready
        · exact absurd h2 hf2
        · rfl
      rcases Option.ne_none_iff_exists'.mp (hP1 _) with ⟨e, he⟩
      rw [reconcileLoop_cons_err s ClassName.P1 [] _ _ e (by simpa [TaskMap.get] using hft2) he]
      simp [TaskMap.put, TaskMap.get]

/-- Witness for C4_amended_break: with the map-range order priority-2 first,
a succeeding priority-2 call followed by the failing priority-1 call leaves
the priority-2 record committed with its scheduler-mutated counts. -/
theorem C4_amended_break_witness :
    (handleDemandChange (Except.ok 7) (Except.ok 2) schedP1Err
        [ClassName.P2, ClassName.P1] (HState.mk tsStart true)).1.ts.p2
      = Task.mk 2 2 0 :=
  ((C4_amended_break (Except.ok 7) (Except.ok 2) schedP1Err (HState.mk tsStart true)
      (fun t => by simp [schedP1Err])).2
    7 2 rfl rfl rfl (by decide) (by decide)).trans (by decide)

/-- Claim C5: a failed GetDemand aborts the sample in both generations of
the code: the part_000 update leaves the task map untouched, reports changed
= false and surfaces the error; handleDemandChange then issues no scheduler
call and leaves the whole state unchanged; and a main.go tick whose single
GetDemand fails leaves the Demand record unchanged and issues no call. -/
theorem C5_sample_abort (inp1 inp2 : DemandRes) (s : Sched) (order : List ClassName)
    (st : HState) (e : Err) (d : Demand) (cnt : CountRes) (p1res p2res : Option Err)
    (h : inp1 = Except.error e ∨ ((∃ v, inp1 = Except.ok v) ∧ inp2 = Except.error e)) :
    update inp1 inp2 st.ts = (st.ts, false, some e) ∧
    handleDemandChange inp1 inp2 s order st = (st, [], some e) ∧
    tick d (Except.error e) cnt p1res p2res = (d, [], none) := by
  have hupd : update inp1 inp2 st.ts = (st.ts, false, some e) := by
    rcases h with h1 | ⟨⟨v, hv⟩, h2⟩
    · rw [h1]
      rfl
    · rw [hv, h2]
      rfl
  refine ⟨hupd, ?_, rfl⟩
  simp [handleDemandChange, hupd]

/-- Witness for C5_sample_abort: a concrete sample whose second GetDemand
fails with error 3 after a successful first query leaves everything as it
was. -/
theorem C5_sample_abort_witness :
    update (Except.ok 7) (Except.error 3) (HState.mk tsStart true).ts
        = ((HState.mk tsStart true).ts, false, some 3) ∧
    handleDemandChange (Except.ok 7) (Except.error 3) schedOk
        [ClassName.P1, ClassName.P2] (HState.mk tsStart true)
      = (HState.mk tsStart true, [], some 3) ∧
    tick startupDemand (Except.error 3) (CountRes.mk 0 0 none) none none
      = (startupDemand, [], none) :=
  C5_sample_abort (Except.ok 7) (Except.error 3) schedOk [ClassName.P1, ClassName.P2]
    (HState.mk tsStart true) 3 startupDemand (CountRes.mk 0 0 none) none none
    (Or.inr ⟨⟨7, rfl⟩, rfl⟩)

/-- Claim C6, counterexample: both range orders over the two-key task map are
admissible in Go, and the same cycle over the same state issues its two
StopStartNTasks calls in different orders under them — in one of them the
priority-2 call precedes the priority-1 call. -/
theorem C6_counterexample :
    Admissible [ClassName.P2, ClassName.P1] ∧
    (handleDemandChange (Except.ok 7) (Except.ok 2) schedOk [ClassName.P2, ClassName.P1]
        (HState.mk tsStart true)).2.1 = [(ClassName.P2, true), (ClassName.P1, true)] ∧
    (handleDemandChange (Except.ok 7) (Except.ok 2) schedOk [ClassName.P1, ClassName.P2]
        (HState.mk tsStart true)).2.1 = [(ClassName.P1, true), (ClassName.P2, true)] ∧
    [(ClassName.P2, true), (ClassName.P1, true)]
      ≠ [(ClassName.P1, true), (ClassName.P2, true)] :=
  ⟨Or.inr rfl, by decide, by decide, by decide⟩

/-- Claim C6, amended: main.go's Demand.handle does issue its scheduler calls
in a fixed deterministic order, priority-1 before priority-2, on every input;
part_000's handleDemandChange instead ranges over a Go map, whose iteration
order is unspecified, so its call order is not fixed. -/
theorem C6_amended_main_order (d : Demand) (p1res p2res : Option Err) :
    (d.handle p1res p2res).2
      = [SchedCall.stopStart ClassName.P1 d.p1demand d.p1requested,
         SchedCall.stopStart ClassName.P2 d.p2demand d.p2requested] := rfl

/-- Claim C7: evaluation at the failing input.  main.go's Demand.handle never
assigns the priority-2 call's result, so with the priority-1 call succeeding
and the priority-2 call failing with error 2 it returns a nil error, while
part_000's handleDemandChange returns the priority-2 error in the same
situation. -/
theorem C7_failing_eval :
    (startupDemand.handle none (some 2)).1 = none ∧
    (handleDemandChange (Except.ok 7) (Except.ok 2) schedP2Err [ClassName.P1, ClassName.P2]
        (HState.mk tsStart true)).2.2 = some 2 := by
  decide

/-- Claim C8: evaluation at the failing input.  On a transport-level error
from the HTTP client the deferred close of the nil response panics, crashing
the process instead of returning the logged, non-fatal error the claim
describes; when a response does arrive, the push succeeds at status 204 and
fails at status 500, matching the status ≤ 204 success rule. -/
theorem C8_failing_eval :
    sendStateToAPI (Except.ok (3, 4)) none none (Except.error 7) = PushOutcome.panicked ∧
    sendStateToAPI (Except.ok (3, 4)) none none (Except.ok 204) = PushOutcome.success ∧
    sendStateToAPI (Except.ok (3, 4)) none none (Except.ok 500) = PushOutcome.failure 4 := by
  decide

/-- The changed flag computed by a successful Demand.update compares the
sampled value and its complement against the stored demands. -/
theorem update_ok_snd (d : Demand) (v : Int) :
    (d.update (Except.ok v)).2
      = ((v != d.p1demand) || ((const_maxcontainers - v) != d.p2demand)) := rfl

/-- A tick whose sample equals the stored demands leaves the record unchanged
and issues no scheduler call. -/
theorem tick_unchanged (d : Demand) (cnt : CountRes) (p1res p2res : Option Err)
    (hp2 : d.p2demand = const_maxcontainers - d.p1demand) :
    tick d (Except.ok d.p1demand) cnt p1res p2res = (d, [], none) := by
  have hupd : d.update (Except.ok d.p1demand) = (d, false) := by
    simp only [Demand.update, Demand.set, ← hp2, bne_self_eq_false, Bool.or_self]
    split_ifs <;> rfl
  simp [tick, hupd]

/-- Over a run of ticks that all sample the stored demand, no scheduler call
is ever issued and the record never changes. -/
theorem run_unchanged (d : Demand) (hp2 : d.p2demand = const_maxcontainers - d.p1demand) :
    ∀ inputs : List TickInput, (∀ i ∈ inputs, i.getRes = Except.ok d.p1demand) →
      run d inputs = (d, []) := by
  intro inputs
  induction inputs with
  | nil =>
    intro _
    rfl
  | cons i rest ih =>
    intro hsame
    have hi : i.getRes = Except.ok d.p1demand := hsame i (by simp)
    simp only [run, hi, tick_unchanged d i.cnt i.p1res i.p2res hp2]
    simp [ih (fun j hj => hsame j (by simp [hj]))]

/-- Claim C9: a sample equal to the immediately preceding stored values makes
the cycle a no-op: over any run of main-loop ticks whose samples equal the
stored demand, zero scheduler calls are issued and the state is unchanged;
and a part_000 sample returning the stored demands reports changed = false
with no error and the map rewritten to the same values. -/
theorem C9_unchanged_no_calls (d : Demand) (inputs : List TickInput)
    (hp2 : d.p2demand = const_maxcontainers - d.p1demand)
    (hsame : ∀ i ∈ inputs, i.getRes = Except.ok d.p1demand) :
    run d inputs = (d, []) ∧
    ∀ ts : TaskMap,
      update (Except.ok ts.p1.demand) (Except.ok ts.p2.demand) ts = (ts, false, none) := by
  refine ⟨run_unchanged d hp2 inputs hsame, ?_⟩
  intro ts
  simp [update, bne_self_eq_false]

/-- Witness for C9_unchanged_no_calls: three consecutive ticks sampling the
startup demand 5 issue zero scheduler calls. -/
theorem C9_unchanged_no_calls_witness :
    run startupDemand
        [TickInput.mk (Except.ok 5) (CountRes.mk 0 0 none) none none,
         TickInput.mk (Except.ok 5) (CountRes.mk 0 0 none) none none,
         TickInput.mk (Except.ok 5) (CountRes.mk 0 0 none) none none]
      = (startupDemand, []) ∧
    ∀ ts : TaskMap,
      update (Except.ok ts.p1.demand) (Except.ok ts.p2.demand) ts = (ts, false, none) :=
  C9_unchanged_no_calls startupDemand
    [TickInput.mk (Except.ok 5) (CountRes.mk 0 0 none) none none,
     TickInput.mk (Except.ok 5) (CountRes.mk 0 0 none) none none,
     TickInput.mk (Except.ok 5) (CountRes.mk 0 0 none) none none]
    (by decide)
    (by
      intro i hi
      simp only [List.mem_cons, List.not_mem_nil, or_false] at hi
      rcases hi with rfl | rfl | rfl <;> rfl)

/-- Claim C10, counterexample: when the pre-loop sample already returned 7,
the first in-loop sample of 7 yields the demand vector (7, 2), which differs
from the startup-seeded (5, 4), yet the first loop iteration performs no
reconciliation and issues no scheduler call: the pre-loop update call is not
dead (it rewrote the stored demands before the loop started); only the flag
assignment is. -/
theorem C10_counterexample :
    firstIteration (Except.ok 7) (Except.ok 7) (CountRes.mk 0 0 none) none none
      = (Demand.mk 7 2 0 0, [], none) ∧
    ((7 : Int) ≠ const_p1demandstart ∨ (2 : Int) ≠ const_p2demandstart) := by
  decide

/-- A tick on a successful sample issues calls exactly when the sampled value
or its complement differs from the stored demands. -/
theorem tick_calls_iff (d : Demand) (v : Int) (cnt : CountRes) (p1res p2res : Option Err) :
    (tick d (Except.ok v) cnt p1res p2res).2.1 ≠ [] ↔
      (v ≠ d.p1demand ∨ const_maxcontainers - v ≠ d.p2demand) := by
  simp only [tick]
  rw [update_ok_snd d v]
  cases hch : ((v != d.p1demand) || ((const_maxcontainers - v) != d.p2demand)) with
  | false =>
    simp only [Bool.or_eq_false_iff, bne_eq_false_iff_eq] at hch
    exact iff_of_false (by simp)
      (by rcases hch with ⟨h1, h2⟩; subst h1; simp [h2])
  | true =>
    simp only [Bool.or_eq_true, bne_iff_ne] at hch
    exact iff_of_true (by simp) hch

/-- Claim C10, amended: the demandchangeflag = true assignment is dead (its
value is overwritten by the in-loop sample before any read), but the
pre-loop update call is not: the first loop iteration reconciles iff the
first in-loop sample differs from the demands stored by the pre-loop update
(which equal the startup seed (5, 4) only when the pre-loop sample failed or
returned the seed value); no unconditional initial reconciliation happens. -/
theorem C10_amended_first_tick (preRes : DemandRes) (v1 : Int) (cnt : CountRes)
    (p1res p2res : Option Err) :
    (firstIteration preRes (Except.ok v1) cnt p1res p2res).2.1 ≠ [] ↔
      (v1 ≠ (startupDemand.update preRes).1.p1demand ∨
       const_maxcontainers - v1 ≠ (startupDemand.update preRes).1.p2demand) := by
  simp only [firstIteration]
  exact tick_calls_iff ((startupDemand.update preRes).1) v1 cnt p1res p2res

/-- Witness for C10_amended_first_tick at a concrete pre-loop sample of 7 and
first in-loop sample of 3. -/
theorem C10_amended_first_tick_witness :
    (firstIteration (Except.ok 7) (Except.ok 3) (CountRes.mk 1 1 none) none none).2.1 ≠ [] ↔
      ((3 : Int) ≠ (startupDemand.update (Except.ok 7)).1.p1demand ∨
       const_maxcontainers - 3 ≠ (startupDemand.update (Except.ok 7)).1.p2demand) :=
  C10_amended_first_tick (Except.ok 7) 3 (CountRes.mk 1 1 none) none none

end Microscaling
